import Mathlib

/-!
# smimegw: the processing stage, the command tree and the certificate templates

A shallow embedding of the Go sources of `bukodi/smimegw`:

* `pkg/smtpsrv/smtp_test.go`: `MyFooProcessor` (the `SmimeExtract` stage), its initializer
  and the processor closure it returns;
* `cmd/smimegw/cmd_root.go`, `cmd_version.go`, `main_test.go`: `rootCmd`, `versionCmd`;
* `testdata/gencerts.go`: the certificate template of `generateSelfSignedCert`.

Go pointers and captured variables become explicit state passing: a processor receives the
envelope and the state of the rest of the chain and returns both, next to its `(Result, error)`
pair; the variable `decryptionKey` captured by the closures of one `MyFooProcessor` call is
the record `FooState`.
-/

namespace Smimegw

/-! ## Values of the mail-server library used by the stage -/

/-- Go `error` values are represented by their message; `none` is the nil error. -/
abbrev GoError := String

/-- Dynamic values stored in a `map[string]interface{}`: the untyped nil, a value whose dynamic
type is exactly `string`, `int` or `bool`, or a value of any other dynamic type (named). -/
inductive GoValue where
  | nil
  | str (s : String)
  | int (i : Int)
  | bool (b : Bool)
  | other (typeName : String)
  deriving DecidableEq, Repr

/-- The type `backends.BackendConfig`, a `map[string]interface{}`, as an association list;
indexing the map is `BackendConfig.index`. -/
abbrev BackendConfig := List (String × GoValue)

/-- Indexing `backendConfig[key]`: the stored value, or the nil interface for a missing key. -/
def BackendConfig.index (c : BackendConfig) (key : String) : GoValue :=
  match c.lookup key with
  | some v => v
  | none => GoValue.nil

/-- The type assertion `v.(string)` in its two-result form: the string and `ok`. -/
def GoValue.assertString : GoValue → String × Bool
  | GoValue.str s => (s, true)
  | _ => ("", false)

/-- The type `backends.SelectTask`, declared `int` by the library. -/
abbrev SelectTask := Int

/-- The library constant `backends.TaskSaveMail` (first of the `iota` block). -/
def TaskSaveMail : SelectTask := 0

/-- The library constant `backends.TaskValidateRcpt` (second of the `iota` block). -/
def TaskValidateRcpt : SelectTask := 1

/-- A non-nil `backends.Result`: the reply code and the reply text. -/
structure Result where
  Code : Int
  Text : String
  deriving DecidableEq, Repr

/-- Reply-code convention of SMTP: 4xx (transient) and 5xx (permanent) replies are rejects. -/
def Result.isReject (r : Result) : Bool :=
  decide (400 ≤ r.Code ∧ r.Code < 600)

/-- The type `mail.Envelope`, reduced to the data of one mail transaction: sender, recipients,
parsed headers, the body buffer `Data`, the per-stage values and the queue identifier. -/
structure Envelope where
  MailFrom : String
  RcptTo : List String
  Header : List (String × String)
  Data : List UInt8
  Values : List (String × GoValue)
  QueuedId : String
  deriving DecidableEq, Repr

/-- What a call of `Process(e, task)` leaves behind: the returned `(Result, error)` pair, the
envelope behind the pointer `e` after the call, and the state of the rest of the chain. -/
structure Outcome (σ : Type) where
  result : Option Result
  err : Option GoError
  envelope : Envelope
  world : σ

/-- The interface `backends.Processor`: its one method `Process(e, task)`, running against the
state `σ` of whatever the processor owns. -/
abbrev Processor (σ : Type) := Envelope → SelectTask → σ → Outcome σ

/-! ## `MyFooProcessor` -/

/-- The variables captured by the closures of one call of `MyFooProcessor`. -/
structure FooState where
  decryptionKey : String
  deriving DecidableEq, Repr

/-- The declaration `var decryptionKey string`: the zero value. -/
def FooState.zero : FooState := ⟨""⟩

/-- The function wrapped by `backends.InitializeWith` in `MyFooProcessor`: the returned error
and the captured variables after the call. -/
def MyFooProcessor.initFunc (backendConfig : BackendConfig) (st : FooState) :
    Option GoError × FooState :=
  match (backendConfig.index "decryption_key_path").assertString with
  | (str, true) => (none, { st with decryptionKey := str })
  | (_, false) => (some "decryption_key_path is not a string", st)

/-- The function wrapped by `backends.ProcessWith` in the decorator returned by
`MyFooProcessor`, for the inner processor `p`: the outcome of the call and the captured
variables after it. -/
def MyFooProcessor.Process {σ : Type} (p : Processor σ) (e : Envelope) (task : SelectTask)
    (st : FooState) (w : σ) : Outcome σ × FooState :=
  if task = TaskValidateRcpt then
    let _ := st.decryptionKey
    (p e task w, st)
  else if task = TaskSaveMail then
    (p e task w, st)
  else
    (p e task w, st)

/-- The initializers queued in `backends.Svc`, in registration order. -/
structure Service where
  initializers : List (BackendConfig → FooState → Option GoError × FooState)

/-- The method `Svc.AddInitializer`. -/
def Service.AddInitializer (svc : Service)
    (f : BackendConfig → FooState → Option GoError × FooState) : Service :=
  { svc with initializers := svc.initializers ++ [f] }

/-- One instance of the stage: the captured variables and the decorator over them. -/
structure FooInstance (σ : Type) where
  captured : FooState
  decorator : Processor σ → Envelope → SelectTask → FooState → σ → Outcome σ × FooState

/-- The constructor `MyFooProcessor`: declares `decryptionKey`, registers the initializer with
the service and returns the decorator. -/
def MyFooProcessor (σ : Type) (svc : Service) : FooInstance σ × Service :=
  let st := FooState.zero
  let initFunc := MyFooProcessor.initFunc
  let svc1 := svc.AddInitializer initFunc
  (⟨st, fun p => MyFooProcessor.Process p⟩, svc1)

/-! ## Observing the inner processor -/

/-- The inner processor `p` with a call log: every call appends the envelope and the task it
was handed to the log and otherwise behaves as `p`. -/
def logged {σ : Type} (p : Processor σ) : Processor (σ × List (Envelope × SelectTask)) :=
  fun e task w =>
    let o := p e task w.1
    { result := o.result, err := o.err, envelope := o.envelope,
      world := (o.world, w.2 ++ [(e, task)]) }

/-- The undecorated end of a chain: accepts with `250 OK` and leaves the envelope alone. -/
def acceptAll : Processor Unit :=
  fun e _ w => { result := some ⟨250, "250 2.0.0 OK"⟩, err := none, envelope := e, world := w }

/-! ## Concrete mail bodies -/

/-- The conversion `[]byte(s)` for a text `s` of ASCII characters: one byte per character. -/
def asciiBytes (s : String) : List UInt8 :=
  s.toList.map (fun c => UInt8.ofNat c.toNat)

/-- The message body sent by `TestSendMail`. -/
def plainBody : List UInt8 := asciiBytes "This is a test email sent to the SMTP server."

/-- The bytes of the text `hello`. -/
def helloBody : List UInt8 := asciiBytes "hello"

/-- DER bytes of a CMS `ContentInfo` of type enveloped-data (RSA key transport, AES-128-CBC)
produced by `openssl cms -encrypt` for the five bytes `hello` and one recipient certificate
with subject `O=SMIME Gateway Test, CN=alice, emailAddress=alice@example.com`. -/
def aliceCms : List UInt8 := [
  0x30, 0x82, 0x01, 0xdb, 0x06, 0x09, 0x2a, 0x86, 0x48, 0x86, 0xf7, 0x0d, 0x01, 0x07, 0x03, 0xa0,
  0x82, 0x01, 0xcc, 0x30, 0x82, 0x01, 0xc8, 0x02, 0x01, 0x00, 0x31, 0x82, 0x01, 0x83, 0x30, 0x82,
  0x01, 0x7f, 0x02, 0x01, 0x00, 0x30, 0x67, 0x30, 0x4f, 0x31, 0x1b, 0x30, 0x19, 0x06, 0x03, 0x55,
  0x04, 0x0a, 0x0c, 0x12, 0x53, 0x4d, 0x49, 0x4d, 0x45, 0x20, 0x47, 0x61, 0x74, 0x65, 0x77, 0x61,
  0x79, 0x20, 0x54, 0x65, 0x73, 0x74, 0x31, 0x0e, 0x30, 0x0c, 0x06, 0x03, 0x55, 0x04, 0x03, 0x0c,
  0x05, 0x61, 0x6c, 0x69, 0x63, 0x65, 0x31, 0x20, 0x30, 0x1e, 0x06, 0x09, 0x2a, 0x86, 0x48, 0x86,
  0xf7, 0x0d, 0x01, 0x09, 0x01, 0x16, 0x11, 0x61, 0x6c, 0x69, 0x63, 0x65, 0x40, 0x65, 0x78, 0x61,
  0x6d, 0x70, 0x6c, 0x65, 0x2e, 0x63, 0x6f, 0x6d, 0x02, 0x14, 0x09, 0xee, 0x2c, 0x67, 0x26, 0x61,
  0xc4, 0x9c, 0x52, 0x2c, 0x10, 0xb7, 0x69, 0xff, 0x39, 0xb0, 0x8f, 0xc5, 0x36, 0x5f, 0x30, 0x0d,
  0x06, 0x09, 0x2a, 0x86, 0x48, 0x86, 0xf7, 0x0d, 0x01, 0x01, 0x01, 0x05, 0x00, 0x04, 0x82, 0x01,
  0x00, 0x97, 0x7a, 0x61, 0x10, 0xd3, 0xf7, 0x12, 0x74, 0xdc, 0xb1, 0xd2, 0x65, 0xda, 0x06, 0xa1,
  0xc2, 0x5c, 0x12, 0xf4, 0x59, 0xfc, 0xc4, 0xb4, 0x30, 0x18, 0xd7, 0x3b, 0xe4, 0xc1, 0xb6, 0x97,
  0x30, 0x9f, 0xe7, 0xd6, 0xd9, 0xeb, 0x6f, 0xb0, 0xd7, 0xb2, 0x05, 0x9d, 0x16, 0x3f, 0x1e, 0x4b,
  0x30, 0x33, 0xac, 0xbc, 0x0f, 0xf2, 0x70, 0xab, 0xdc, 0x17, 0xeb, 0x8c, 0x89, 0x0c, 0x44, 0xc6,
  0x80, 0xde, 0x96, 0x5b, 0xee, 0x64, 0x3f, 0x1a, 0xd5, 0x5c, 0xb0, 0x1d, 0x9b, 0x25, 0xa9, 0xf4,
  0x6c, 0x2c, 0xa3, 0xb3, 0x1f, 0x4e, 0x65, 0xa8, 0x87, 0xa2, 0x9a, 0xc1, 0xfb, 0x64, 0xad, 0xb6,
  0x31, 0x13, 0x0d, 0x39, 0x7b, 0x1d, 0xc1, 0x1d, 0x58, 0x15, 0x6b, 0xfc, 0x59, 0xf1, 0x01, 0x74,
  0x33, 0x51, 0xfb, 0x60, 0xb4, 0xb2, 0x9d, 0xd1, 0xa3, 0xdc, 0xa3, 0xc8, 0x24, 0x8b, 0x3a, 0x88,
  0x92, 0xed, 0xc4, 0x0e, 0x5b, 0xbc, 0x6f, 0x66, 0x0f, 0x22, 0xa0, 0xb2, 0x67, 0x02, 0x99, 0x5e,
  0x29, 0xe5, 0x4b, 0x06, 0xc6, 0xcc, 0xe3, 0xae, 0xeb, 0x44, 0xac, 0x6e, 0xd8, 0xec, 0x9f, 0x5c,
  0x43, 0x9a, 0x08, 0xec, 0x39, 0xc0, 0x05, 0xc8, 0x33, 0x7f, 0xe8, 0x6d, 0x5a, 0x31, 0x7a, 0xaa,
  0x09, 0xd9, 0x64, 0xe3, 0x63, 0x33, 0xe9, 0x5e, 0xb2, 0x4c, 0x0e, 0xa4, 0x7d, 0xf8, 0xc1, 0x92,
  0xdb, 0xef, 0x2c, 0xec, 0xd9, 0x9b, 0xb0, 0x6b, 0x96, 0x83, 0xd4, 0x6c, 0x2d, 0x7f, 0x2c, 0x2c,
  0x6f, 0x55, 0xb2, 0x62, 0xbd, 0x34, 0x08, 0x2c, 0x0c, 0x3c, 0x85, 0xe4, 0x75, 0x11, 0xc5, 0x69,
  0x69, 0x22, 0x3e, 0x42, 0xd6, 0xb2, 0xa1, 0xe7, 0xc7, 0x5e, 0x6b, 0xba, 0x9a, 0x49, 0x75, 0xf2,
  0x45, 0x85, 0x22, 0x54, 0x5c, 0x01, 0xc7, 0xf1, 0x3a, 0xe8, 0x08, 0x72, 0x53, 0x27, 0xdc, 0x62,
  0xcd, 0x30, 0x3c, 0x06, 0x09, 0x2a, 0x86, 0x48, 0x86, 0xf7, 0x0d, 0x01, 0x07, 0x01, 0x30, 0x1d,
  0x06, 0x09, 0x60, 0x86, 0x48, 0x01, 0x65, 0x03, 0x04, 0x01, 0x02, 0x04, 0x10, 0x99, 0x1f, 0x31,
  0x9e, 0xae, 0x1e, 0x91, 0xd7, 0xd5, 0x95, 0x79, 0x6c, 0x11, 0xb7, 0x2d, 0x27, 0x80, 0x10, 0x18,
  0x6c, 0x3b, 0xc4, 0x96, 0xc9, 0xa4, 0xe9, 0xbd, 0x94, 0x36, 0x6e, 0x50, 0xca, 0xcf, 0x54]

/-- DER bytes of a CMS `ContentInfo` of type enveloped-data (RSA key transport, AES-128-CBC)
produced by `openssl cms -encrypt` for one recipient certificate with subject
`O=SMIME Gateway Test, CN=carol, emailAddress=carol@example.com`. -/
def carolCms : List UInt8 := [
  0x30, 0x82, 0x01, 0xdb, 0x06, 0x09, 0x2a, 0x86, 0x48, 0x86, 0xf7, 0x0d, 0x01, 0x07, 0x03, 0xa0,
  0x82, 0x01, 0xcc, 0x30, 0x82, 0x01, 0xc8, 0x02, 0x01, 0x00, 0x31, 0x82, 0x01, 0x83, 0x30, 0x82,
  0x01, 0x7f, 0x02, 0x01, 0x00, 0x30, 0x67, 0x30, 0x4f, 0x31, 0x1b, 0x30, 0x19, 0x06, 0x03, 0x55,
  0x04, 0x0a, 0x0c, 0x12, 0x53, 0x4d, 0x49, 0x4d, 0x45, 0x20, 0x47, 0x61, 0x74, 0x65, 0x77, 0x61,
  0x79, 0x20, 0x54, 0x65, 0x73, 0x74, 0x31, 0x0e, 0x30, 0x0c, 0x06, 0x03, 0x55, 0x04, 0x03, 0x0c,
  0x05, 0x63, 0x61, 0x72, 0x6f, 0x6c, 0x31, 0x20, 0x30, 0x1e, 0x06, 0x09, 0x2a, 0x86, 0x48, 0x86,
  0xf7, 0x0d, 0x01, 0x09, 0x01, 0x16, 0x11, 0x63, 0x61, 0x72, 0x6f, 0x6c, 0x40, 0x65, 0x78, 0x61,
  0x6d, 0x70, 0x6c, 0x65, 0x2e, 0x63, 0x6f, 0x6d, 0x02, 0x14, 0x76, 0x74, 0x0c, 0x87, 0x42, 0x5e,
  0x8f, 0xbc, 0x35, 0xfc, 0x09, 0x42, 0xc0, 0x1a, 0x16, 0x5d, 0xd7, 0x0e, 0x24, 0xf3, 0x30, 0x0d,
  0x06, 0x09, 0x2a, 0x86, 0x48, 0x86, 0xf7, 0x0d, 0x01, 0x01, 0x01, 0x05, 0x00, 0x04, 0x82, 0x01,
  0x00, 0x9c, 0x4a, 0xea, 0x18, 0x22, 0x69, 0x72, 0x1b, 0xc4, 0x92, 0xe5, 0xde, 0xea, 0x2f, 0x38,
  0x64, 0xac, 0x0d, 0xca, 0xe0, 0x36, 0x14, 0xbe, 0x56, 0x6f, 0x79, 0xe7, 0xe5, 0x2f, 0xa4, 0x05,
  0x00, 0x2e, 0x3f, 0xc4, 0x58, 0xb7, 0xcf, 0x69, 0x0a, 0x4d, 0x2a, 0x5e, 0xdf, 0x63, 0xa4, 0xe5,
  0x1c, 0x1c, 0x4d, 0xc0, 0x69, 0xe7, 0xc6, 0x24, 0x2b, 0x24, 0x89, 0x7d, 0x0f, 0xca, 0xaf, 0xa0,
  0x04, 0x20, 0x24, 0xc2, 0x3e, 0xe9, 0x86, 0x06, 0xc8, 0x0e, 0xea, 0xda, 0x4c, 0x7a, 0x8c, 0xba,
  0xe7, 0xa7, 0x71, 0x15, 0x69, 0x00, 0xc3, 0x64, 0xcb, 0xf3, 0x78, 0xa5, 0x8d, 0xb5, 0xb9, 0x7f,
  0xb2, 0xdb, 0x9b, 0xf6, 0xf6, 0x5b, 0x0b, 0xbe, 0xc5, 0xea, 0x94, 0x2a, 0x6e, 0x35, 0x1d, 0xf0,
  0xdc, 0x66, 0x83, 0x4e, 0x09, 0x1c, 0xef, 0x09, 0xcc, 0xb4, 0xfd, 0xd7, 0x61, 0x71, 0xc4, 0xd6,
  0x5d, 0x74, 0x95, 0xe1, 0x51, 0xfd, 0xf2, 0x7a, 0xcf, 0x23, 0x2b, 0x33, 0xb2, 0xe9, 0xa2, 0x79,
  0xf1, 0x03, 0x65, 0xbe, 0x1f, 0x42, 0xc6, 0x7d, 0x65, 0xc7, 0xee, 0x72, 0xf2, 0xa2, 0x1a, 0xb2,
  0xa3, 0x97, 0xb8, 0x34, 0x70, 0x33, 0x86, 0xaf, 0xd6, 0x6d, 0x8d, 0xb5, 0x86, 0x7b, 0x01, 0x80,
  0xff, 0xd5, 0xa0, 0x4d, 0x31, 0x07, 0xd3, 0xd4, 0xdb, 0x7a, 0x6f, 0x40, 0x91, 0x06, 0x3f, 0xd1,
  0x47, 0xdb, 0xde, 0x71, 0x87, 0x49, 0x50, 0x57, 0x69, 0xb0, 0xd8, 0x57, 0x72, 0xa5, 0xfa, 0x02,
  0xa8, 0xbe, 0xe0, 0x17, 0x34, 0xc7, 0x3b, 0x76, 0x88, 0x74, 0x85, 0xe7, 0x6d, 0x54, 0x40, 0x21,
  0x16, 0x2c, 0x6a, 0xe9, 0xe0, 0xb1, 0x2a, 0x3c, 0xa1, 0x34, 0x89, 0x8f, 0x5e, 0x0b, 0xa2, 0xeb,
  0xd6, 0x9d, 0x11, 0x46, 0x99, 0xa2, 0xa1, 0x16, 0x77, 0x9f, 0xcf, 0x29, 0xc6, 0xa2, 0xea, 0x31,
  0xe2, 0x30, 0x3c, 0x06, 0x09, 0x2a, 0x86, 0x48, 0x86, 0xf7, 0x0d, 0x01, 0x07, 0x01, 0x30, 0x1d,
  0x06, 0x09, 0x60, 0x86, 0x48, 0x01, 0x65, 0x03, 0x04, 0x01, 0x02, 0x04, 0x10, 0x0c, 0xdc, 0xa5,
  0xa5, 0xbe, 0x6a, 0xcd, 0x46, 0xb9, 0x30, 0xc1, 0xd2, 0x5a, 0x23, 0x5e, 0x9d, 0x80, 0x10, 0x60,
  0xc8, 0xa1, 0xec, 0xe3, 0xfa, 0xf0, 0x93, 0x69, 0x96, 0x59, 0xda, 0xa8, 0x25, 0x00, 0x13]

/-- DER encoding of the object identifier 1.2.840.113549.1.7.3, the CMS content type
enveloped-data, which follows the four header bytes of the outer `SEQUENCE`. -/
def envelopedDataOid : List UInt8 :=
  [0x06, 0x09, 0x2a, 0x86, 0x48, 0x86, 0xf7, 0x0d, 0x01, 0x07, 0x03]

/-- The envelope of `TestSendMail`: plain text from `sender@example.com`. -/
def plainMail : Envelope :=
  { MailFrom := "sender@example.com", RcptTo := ["recipient@example.com"],
    Header := [("To", "recipient@example.com"), ("From", "sender@example.com"),
      ("Subject", "Test Email")],
    Data := plainBody, Values := [], QueuedId := "1" }

/-- An envelope for `alice@example.com` whose body is `aliceCms`. -/
def mailToAlice : Envelope :=
  { MailFrom := "sender@example.com", RcptTo := ["alice@example.com"],
    Header := [("Content-Type", "application/pkcs7-mime; smime-type=enveloped-data")],
    Data := aliceCms, Values := [], QueuedId := "2" }

/-- An envelope for `carol@example.com` whose body is `carolCms`. -/
def mailToCarol : Envelope :=
  { MailFrom := "sender@example.com", RcptTo := ["carol@example.com"],
    Header := [("Content-Type", "application/pkcs7-mime; smime-type=enveloped-data")],
    Data := carolCms, Values := [], QueuedId := "3" }

/-- The backend configuration of `TestServer` and `TestSendMail`. -/
def testConfig : BackendConfig :=
  [("save_workers_size", GoValue.int 3),
   ("save_process", GoValue.str "HeadersParser|Header|Hasher|Debugger|SmimeExtract"),
   ("log_received_mails", GoValue.bool true),
   ("primary_mail_host", GoValue.str "example.com"),
   ("decryption_key_path", GoValue.str "/tmp/cica")]

/-! ## The command tree (`cmd/smimegw`) -/

/-- What a command writes while it runs: text on standard output, or the help screen of the
command with the given `Use` line (the call `cmd.Help()`). -/
inductive Effect where
  | stdout (text : String)
  | help (use : String)
  deriving DecidableEq, Repr

/-- How a `Run` function (no error result) ends: it returns, or it panics with a message. -/
inductive Ran where
  | finished (out : List Effect)
  | panicked (msg : String) (out : List Effect)
  deriving DecidableEq, Repr

/-- How a `RunE` function or `Execute` ends: it returns an error or nil, or it panics. -/
inductive Exec where
  | returned (err : Option GoError) (out : List Effect)
  | panicked (msg : String) (out : List Effect)
  deriving DecidableEq, Repr

/-- What the process reads from its runtime: the two results of `debug.ReadBuildInfo()`, as the
text that `%+v` prints for the build information, or `none` when `ok` is false. -/
structure Runtime where
  buildInfo : Option String
  deriving DecidableEq, Repr

/-- The fields of `cobra.Command` set by the program. The receiver `cmd` handed to `Run` and
`RunE` is represented by its `Use` line. -/
structure Command where
  Use : String
  Short : String
  Run : Option (String → List String → Runtime → Ran)
  RunE : Option (String → List String → Runtime → Exec)
  commands : List Command

/-- The method `Name`: the first word of the `Use` line. -/
def Command.Name (c : Command) : String :=
  String.mk (c.Use.toList.takeWhile (fun ch => ch != ' '))

/-- The method `AddCommand`. -/
def Command.AddCommand (c : Command) (sub : Command) : Command :=
  { c with commands := c.commands ++ [sub] }

/-- The method `Help`: shows the help screen of the command and returns nil. -/
def Command.Help (use : String) : Exec :=
  Exec.returned none [Effect.help use]

/-- The command lookup of `Execute` for arguments without flags: descend along the arguments
that name a subcommand; what is left are the arguments of the command found. -/
def Command.Find : List String → Command → Command × List String
  | [], c => (c, [])
  | a :: rest, c =>
    match c.commands.find? (fun sub => sub.Name == a) with
    | some sub => Command.Find rest sub
    | none => (c, a :: rest)

/-- The method `Execute` on a root command with the arguments set by `SetArgs`: look the
command up; when the lookup stays at the root, the root has subcommands and arguments are
left, the first of them names no command and is refused; otherwise run `RunE` if set, else
`Run`, else show the help screen. -/
def Command.Execute (root : Command) (args : List String) (rt : Runtime) : Exec :=
  match Command.Find args root with
  | (c, rest) =>
    if c.Use = root.Use ∧ !root.commands.isEmpty ∧ !rest.isEmpty then
      Exec.returned
        (some ("unknown command \"" ++ rest.headD "" ++ "\" for \"" ++ root.Name ++ "\"")) []
    else
      match c.RunE, c.Run with
      | some f, _ => f c.Use rest rt
      | none, some g =>
        match g c.Use rest rt with
        | Ran.finished out => Exec.returned none out
        | Ran.panicked msg out => Exec.panicked msg out
      | none, none => Command.Help c.Use

/-- The `RunE` function of `rootCmd` (`cmd_root.go`). -/
def rootCmd.RunE (cmd : String) (_args : List String) (_rt : Runtime) : Exec :=
  Command.Help cmd

/-- The `Run` function of `versionCmd` (`cmd_version.go`). -/
def versionCmd.Run (_cmd : String) (_args : List String) (rt : Runtime) : Ran :=
  let out := [Effect.stdout "\n"]
  match rt.buildInfo with
  | none => Ran.panicked "ReadBuildInfo failed" out
  | some bi => Ran.finished (out ++ [Effect.stdout ("Build info:\n" ++ bi ++ "\n")])

/-- The variable `versionCmd`. -/
def versionCmd : Command :=
  { Use := "version", Short := "Print the version number and build info",
    Run := some versionCmd.Run, RunE := none, commands := [] }

/-- The variable `rootCmd` as its composite literal declares it. -/
def rootCmd.literal : Command :=
  { Use := "smimegw", Short := "SMTP MTA for decrypting S/MIME messages",
    Run := none, RunE := some rootCmd.RunE, commands := [] }

/-- The variable `rootCmd` once the package `init` function has run. -/
def rootCmd : Command :=
  rootCmd.literal.AddCommand versionCmd

/-! ## The certificate template (`testdata/gencerts.go`) -/

/-- The type `x509.KeyUsage`, declared `int`: a set of bits. -/
abbrev KeyUsage := Int

/-- The constant `x509.KeyUsageDigitalSignature`, `1 << 0`. -/
def KeyUsageDigitalSignature : KeyUsage := 1

/-- The constant `x509.KeyUsageKeyEncipherment`, `1 << 2`. -/
def KeyUsageKeyEncipherment : KeyUsage := 4

/-- The constant `x509.KeyUsageCertSign`, `1 << 5`. -/
def KeyUsageCertSign : KeyUsage := 32

/-- The type `x509.ExtKeyUsage`, declared `int`: an enumeration. -/
abbrev ExtKeyUsage := Int

/-- The constant `x509.ExtKeyUsageServerAuth`. -/
def ExtKeyUsageServerAuth : ExtKeyUsage := 1

/-- The type `pkix.Name`, the fields the program sets. -/
structure PkixName where
  Organization : List String
  CommonName : String
  deriving DecidableEq, Repr

/-- The type `x509.Certificate`, the fields the program sets. Times are readings of the clock,
kept as numbers. -/
structure Certificate where
  SerialNumber : Nat
  Subject : PkixName
  NotBefore : Int
  NotAfter : Int
  KeyUsage : KeyUsage
  ExtKeyUsage : List ExtKeyUsage
  BasicConstraintsValid : Bool
  IsCA : Bool
  DNSNames : List String
  IPAddresses : List (List UInt8)
  deriving DecidableEq, Repr

/-- The value of `net.ParseIP("127.0.0.1")`: the 16-byte form of the IPv4 address. -/
def ip127001 : List UInt8 :=
  [0, 0, 0, 0, 0, 0, 0, 0, 0, 0, 0xff, 0xff, 127, 0, 0, 1]

/-- What `generateSelfSignedCert` draws from outside: the outcome of `generateKey()` (a key,
named by a number, or an error), the outcome of `rand.Int` below `1 << 128`, the two readings
of `time.Now()` and the library method `AddDate`. -/
structure CertEnv where
  key : Except GoError Nat
  serial : Except GoError Nat
  now1 : Int
  now2 : Int
  addDate : Int → Int → Int → Int → Int

/-- The function `generateSelfSignedCert` up to its call of `x509.CreateCertificate`: the
template handed to that call and the key, or the error returned before it. -/
def generateSelfSignedCert (env : CertEnv) (commonName : String) (isCA : Bool)
    (keyUsage : KeyUsage) (extKeyUsage : List ExtKeyUsage) :
    Except GoError (Certificate × Nat) :=
  match env.key with
  | Except.error err => Except.error ("failed to generate key: " ++ err)
  | Except.ok key =>
    match env.serial with
    | Except.error err => Except.error ("failed to generate serial number: " ++ err)
    | Except.ok serialNumber =>
      let template : Certificate :=
        { SerialNumber := serialNumber,
          Subject := { Organization := ["SMIME Gateway Test"], CommonName := commonName },
          NotBefore := env.now1,
          NotAfter := env.addDate env.now2 10 0 0,
          KeyUsage := keyUsage,
          ExtKeyUsage := extKeyUsage,
          BasicConstraintsValid := true,
          IsCA := false, DNSNames := [], IPAddresses := [] }
      let template :=
        if isCA then
          { template with IsCA := true, KeyUsage := Int.lor template.KeyUsage KeyUsageCertSign }
        else template
      let template :=
        if commonName = "TLS Server" then
          { template with DNSNames := ["localhost"], IPAddresses := [ip127001] }
        else template
      Except.ok (template, key)

/-- A run of the generator in which key and serial number are drawn without error. -/
def sampleEnv : CertEnv :=
  { key := Except.ok 1, serial := Except.ok 42, now1 := 0, now2 := 0,
    addDate := fun t y _ _ => t + y * 31556952 }

/-! ## Shared lemmas -/

/-- Every branch of the processor closure is the call of the inner processor. -/
theorem process_eq_inner {σ : Type} (p : Processor σ) (e : Envelope) (task : SelectTask)
    (st : FooState) (w : σ) :
    MyFooProcessor.Process p e task st w = (p e task w, st) := by
  unfold MyFooProcessor.Process
  split_ifs <;> rfl

/-- The decorator returned by the constructor is the processor closure. -/
theorem decorator_eq_inner {σ : Type} (svc : Service) (p : Processor σ) (e : Envelope)
    (task : SelectTask) (st : FooState) (w : σ) :
    (MyFooProcessor σ svc).1.decorator p e task st w = (p e task w, st) := by
  show MyFooProcessor.Process p e task st w = (p e task w, st)
  exact process_eq_inner p e task st w

/-- One call of a logged processor adds one entry to the log. -/
theorem logged_world {σ : Type} (p : Processor σ) (e : Envelope) (task : SelectTask) (w : σ)
    (log : List (Envelope × SelectTask)) :
    (logged p e task (w, log)).world = ((p e task w).world, log ++ [(e, task)]) := rfl

/-- The initializer, by cases on the configured value. -/
theorem initFunc_cases (c : BackendConfig) (st : FooState) :
    (∃ s, c.lookup "decryption_key_path" = some (GoValue.str s) ∧
        MyFooProcessor.initFunc c st = (none, { st with decryptionKey := s })) ∨
    ((¬ ∃ s, c.lookup "decryption_key_path" = some (GoValue.str s)) ∧
        MyFooProcessor.initFunc c st = (some "decryption_key_path is not a string", st)) := by
  unfold MyFooProcessor.initFunc BackendConfig.index
  cases h : c.lookup "decryption_key_path" with
  | none => right; exact ⟨by simp, rfl⟩
  | some v =>
    cases v with
    | str s => left; exact ⟨s, rfl, rfl⟩
    | nil => right; exact ⟨by simp, rfl⟩
    | int i => right; exact ⟨by simp, rfl⟩
    | bool b => right; exact ⟨by simp, rfl⟩
    | other n => right; exact ⟨by simp, rfl⟩

/-- The constant `KeyUsageCertSign` is bit 5 and nothing else. -/
theorem testBit_certSign (k : Nat) : Int.testBit KeyUsageCertSign k = decide (k = 5) := by
  show Nat.testBit (2 ^ 5) k = decide (k = 5)
  rw [Nat.testBit_two_pow]
  by_cases h : k = 5
  · subst h; rfl
  · have h2 : ¬ 5 = k := fun h3 => h h3.symm
    simp [h, h2]

/-! ## The stage on tasks other than `TaskSaveMail` -/

/-- C1: for every inner processor `p`, envelope `e` and task other than `TaskSaveMail`, the
processor built by `MyFooProcessor()(p)` returns exactly the `(Result, error)` pair of
`p.Process(e, task)`; `p` is handed the input envelope (so its body buffer) as it came in, and
the envelope after the call is the one `p` left: the stage writes nothing. -/
theorem C1_other_tasks_pass_through {σ : Type} (svc : Service) (p : Processor σ) (e : Envelope)
    (task : SelectTask) (st : FooState) (w : σ) (log : List (Envelope × SelectTask))
    (h : task ≠ TaskSaveMail) :
    ((MyFooProcessor σ svc).1.decorator p e task st w).1.result = (p e task w).result ∧
    ((MyFooProcessor σ svc).1.decorator p e task st w).1.err = (p e task w).err ∧
    ((MyFooProcessor (σ × List (Envelope × SelectTask)) svc).1.decorator (logged p) e task st
        (w, log)).1.world.2 = log ++ [(e, task)] ∧
    ((MyFooProcessor σ svc).1.decorator p e task st w).1.envelope = (p e task w).envelope ∧
    ((p e task w).envelope.Data = e.Data →
      ((MyFooProcessor σ svc).1.decorator p e task st w).1.envelope.Data = e.Data) := by
  have _ := h
  rw [decorator_eq_inner, decorator_eq_inner]
  exact ⟨rfl, rfl, rfl, rfl, fun hd => hd⟩

/-- C1 at `TaskValidateRcpt`, the mail of `TestSendMail` and the accepting end of the chain. -/
theorem C1_other_tasks_pass_through_witness :
    TaskValidateRcpt ≠ TaskSaveMail ∧
    ((MyFooProcessor Unit ⟨[]⟩).1.decorator acceptAll plainMail TaskValidateRcpt FooState.zero
        ()).1.result = some ⟨250, "250 2.0.0 OK"⟩ ∧
    ((MyFooProcessor (Unit × List (Envelope × SelectTask)) ⟨[]⟩).1.decorator (logged acceptAll)
        plainMail TaskValidateRcpt FooState.zero ((), [])).1.world.2
      = [(plainMail, TaskValidateRcpt)] ∧
    ((MyFooProcessor Unit ⟨[]⟩).1.decorator acceptAll plainMail TaskValidateRcpt FooState.zero
        ()).1.envelope.Data = plainBody :=
  have h := C1_other_tasks_pass_through ⟨[]⟩ acceptAll plainMail TaskValidateRcpt
    FooState.zero () [] (by decide)
  ⟨by decide, h.1, h.2.2.1, h.2.2.2.2 rfl⟩

/-! ## The stage on `TaskSaveMail` -/

/-- C2, as the code has it: for every envelope, also one whose body is CMS enveloped-data for
a recipient without a key, the stage on `TaskSaveMail` hands the envelope with its body as
received to the inner processor, exactly once, and returns the inner processor's
`(Result, error)` pair unchanged, so it has no reply code of its own and rejects exactly when
the inner processor rejects; the envelope after the call is the one the inner processor left:
the stage writes nothing to the body buffer. -/
theorem C2_save_mail_defers_to_inner {σ : Type} (svc : Service) (p : Processor σ)
    (e : Envelope) (st : FooState) (w : σ) (log : List (Envelope × SelectTask)) :
    ((MyFooProcessor (σ × List (Envelope × SelectTask)) svc).1.decorator (logged p) e
        TaskSaveMail st (w, log)).1.world.2 = log ++ [(e, TaskSaveMail)] ∧
    ((MyFooProcessor σ svc).1.decorator p e TaskSaveMail st w).1.result
      = (p e TaskSaveMail w).result ∧
    ((MyFooProcessor σ svc).1.decorator p e TaskSaveMail st w).1.err
      = (p e TaskSaveMail w).err ∧
    ((∃ r, ((MyFooProcessor σ svc).1.decorator p e TaskSaveMail st w).1.result = some r ∧
        r.isReject = true) ↔
      ∃ r, (p e TaskSaveMail w).result = some r ∧ r.isReject = true) ∧
    ((MyFooProcessor σ svc).1.decorator p e TaskSaveMail st w).1.envelope
      = (p e TaskSaveMail w).envelope ∧
    ((p e TaskSaveMail w).envelope.Data = e.Data →
      ((MyFooProcessor σ svc).1.decorator p e TaskSaveMail st w).1.envelope.Data = e.Data) := by
  rw [decorator_eq_inner, decorator_eq_inner]
  exact ⟨rfl, rfl, rfl, Iff.rfl, rfl, fun hd => hd⟩

/-- C2, as the code has it, at the mail for `carol@example.com` with the accepting end of the
chain as inner processor, which leaves the body alone: the body after the call is the one
that came in. -/
theorem C2_save_mail_defers_to_inner_witness :
    (acceptAll mailToCarol TaskSaveMail ()).envelope.Data = mailToCarol.Data ∧
    ((MyFooProcessor Unit ⟨[]⟩).1.decorator acceptAll mailToCarol TaskSaveMail FooState.zero
        ()).1.result = (acceptAll mailToCarol TaskSaveMail ()).result ∧
    ((MyFooProcessor Unit ⟨[]⟩).1.decorator acceptAll mailToCarol TaskSaveMail FooState.zero
        ()).1.envelope.Data = mailToCarol.Data :=
  have h := C2_save_mail_defers_to_inner ⟨[]⟩ acceptAll mailToCarol FooState.zero () []
  ⟨rfl, h.2.1, h.2.2.2.2.2 rfl⟩

/-- C2 fails on the mail for `carol@example.com`, whose body is CMS enveloped-data and for
whom the stage holds no key (the body starts with the enveloped-data content type and names
the recipient certificate of `carol@example.com`): with the accepting end of the chain as
inner processor the stage returns `250 OK` with a nil error, which is no reject, and the
inner processor was handed the ciphertext. -/
theorem C2_no_key_is_not_rejected :
    mailToCarol.Data = carolCms ∧
    (carolCms.drop 4).take 11 = envelopedDataOid ∧
    (carolCms.drop 103).take 17 = asciiBytes "carol@example.com" ∧
    ((MyFooProcessor Unit ⟨[]⟩).1.decorator acceptAll mailToCarol TaskSaveMail FooState.zero
        ()).1.result = some ⟨250, "250 2.0.0 OK"⟩ ∧
    Result.isReject ⟨250, "250 2.0.0 OK"⟩ = false ∧
    ((MyFooProcessor Unit ⟨[]⟩).1.decorator acceptAll mailToCarol TaskSaveMail FooState.zero
        ()).1.err = none ∧
    (((MyFooProcessor (Unit × List (Envelope × SelectTask)) ⟨[]⟩).1.decorator
        (logged acceptAll) mailToCarol TaskSaveMail FooState.zero ((), [])).1.world.2.map
          (fun c => (c.1.Data, c.2))) = [(carolCms, TaskSaveMail)] := by
  refine ⟨rfl, by decide, by decide, rfl, by decide, rfl, rfl⟩

/-- C3, as the code has it: for every envelope and every body `c`, also the CMS enveloped-data
encryption of a plaintext to a recipient whose key path is configured, the stage on
`TaskSaveMail` hands the body `c` as received to the inner processor, leaves in the envelope
what the inner processor left there, and returns the inner processor's result. -/
theorem C3_save_mail_keeps_body {σ : Type} (svc : Service) (p : Processor σ)
    (e : Envelope) (c : List UInt8) (st : FooState) (w : σ)
    (log : List (Envelope × SelectTask)) :
    (((MyFooProcessor (σ × List (Envelope × SelectTask)) svc).1.decorator (logged p)
        { e with Data := c } TaskSaveMail st (w, log)).1.world.2.map (fun x => x.1.Data))
      = log.map (fun x => x.1.Data) ++ [c] ∧
    ((MyFooProcessor σ svc).1.decorator p { e with Data := c } TaskSaveMail st w).1.envelope
      = (p { e with Data := c } TaskSaveMail w).envelope ∧
    ((MyFooProcessor σ svc).1.decorator p { e with Data := c } TaskSaveMail st w).1.result
      = (p { e with Data := c } TaskSaveMail w).result := by
  rw [decorator_eq_inner, decorator_eq_inner]
  refine ⟨?_, rfl, rfl⟩
  rw [logged_world]
  simp

/-- C3 fails on the mail for `alice@example.com`, whose body is the CMS enveloped-data
encryption of `hello`, with the key path of the test configuration loaded: the body seen by
the inner processor and the body left in the envelope are the ciphertext, not `hello`. -/
theorem C3_body_stays_encrypted :
    MyFooProcessor.initFunc testConfig FooState.zero = (none, ⟨"/tmp/cica"⟩) ∧
    mailToAlice.Data = aliceCms ∧
    (aliceCms.drop 4).take 11 = envelopedDataOid ∧
    (aliceCms.drop 103).take 17 = asciiBytes "alice@example.com" ∧
    (((MyFooProcessor (Unit × List (Envelope × SelectTask)) ⟨[]⟩).1.decorator
        (logged acceptAll) mailToAlice TaskSaveMail ⟨"/tmp/cica"⟩ ((), [])).1.world.2.map
          (fun c => c.1.Data)) = [aliceCms] ∧
    ((MyFooProcessor Unit ⟨[]⟩).1.decorator acceptAll mailToAlice TaskSaveMail ⟨"/tmp/cica"⟩
        ()).1.envelope.Data = aliceCms ∧
    aliceCms ≠ helloBody := by
  refine ⟨by decide, rfl, by decide, by decide, rfl, rfl, by decide⟩

/-- C4: for every envelope, so for every one whose body is not S/MIME enveloped-data, and
for every inner processor, whatever it returns, the stage on `TaskSaveMail` delegates to the
inner processor exactly once with the envelope as received and writes nothing itself: the
envelope after the call is the one the inner processor left, so the body is unchanged
whenever the inner processor did not write it. The stage introduces no error of its own: the
returned error is the inner processor's, hence nil whenever the inner processor's is nil. -/
theorem C4_plain_mail_passes_through {σ : Type} (svc : Service) (p : Processor σ)
    (e : Envelope) (st : FooState) (w : σ) (log : List (Envelope × SelectTask)) :
    ((MyFooProcessor (σ × List (Envelope × SelectTask)) svc).1.decorator (logged p) e
        TaskSaveMail st (w, log)).1.world = ((p e TaskSaveMail w).world,
          log ++ [(e, TaskSaveMail)]) ∧
    ((MyFooProcessor σ svc).1.decorator p e TaskSaveMail st w).1.envelope
      = (p e TaskSaveMail w).envelope ∧
    ((p e TaskSaveMail w).envelope.Data = e.Data →
      ((MyFooProcessor σ svc).1.decorator p e TaskSaveMail st w).1.envelope.Data = e.Data) ∧
    ((MyFooProcessor σ svc).1.decorator p e TaskSaveMail st w).1.err
      = (p e TaskSaveMail w).err ∧
    ((p e TaskSaveMail w).err = none →
      ((MyFooProcessor σ svc).1.decorator p e TaskSaveMail st w).1.err = none) := by
  rw [decorator_eq_inner, decorator_eq_inner]
  exact ⟨rfl, rfl, fun hd => hd, rfl, fun he => he⟩

/-- C4 at the plain-text mail of `TestSendMail` and the accepting end of the chain: the inner
processor is handed the mail, the body after the call is the test message and the error is
nil. -/
theorem C4_plain_mail_passes_through_witness :
    (acceptAll plainMail TaskSaveMail ()).envelope.Data = plainMail.Data ∧
    (acceptAll plainMail TaskSaveMail ()).err = none ∧
    ((MyFooProcessor (Unit × List (Envelope × SelectTask)) ⟨[]⟩).1.decorator (logged acceptAll)
        plainMail TaskSaveMail FooState.zero ((), [])).1.world.2 = [(plainMail, TaskSaveMail)] ∧
    ((MyFooProcessor Unit ⟨[]⟩).1.decorator acceptAll plainMail TaskSaveMail FooState.zero
        ()).1.envelope.Data = plainBody ∧
    ((MyFooProcessor Unit ⟨[]⟩).1.decorator acceptAll plainMail TaskSaveMail FooState.zero
        ()).1.err = none :=
  have h := C4_plain_mail_passes_through ⟨[]⟩ acceptAll plainMail FooState.zero () []
  ⟨rfl, rfl, congrArg Prod.snd h.1, h.2.2.1 rfl, h.2.2.2.2 rfl⟩

/-! ## Delegation -/

/-- C5: for every inner processor `p`, envelope `e` and task (`TaskSaveMail` included), the
stage calls `p.Process(e, task)` exactly once, with the same envelope and the same task (the
call log grows by that one entry), and its verdict is that of `p`: result, error and what `p`
did are returned unchanged, so a reject or an error of `p` is never turned into an accept. -/
theorem C5_inner_called_once_verdict_kept {σ : Type} (svc : Service) (p : Processor σ)
    (e : Envelope) (task : SelectTask) (st : FooState) (w : σ)
    (log : List (Envelope × SelectTask)) :
    ((MyFooProcessor (σ × List (Envelope × SelectTask)) svc).1.decorator (logged p) e task st
        (w, log)).1.world = ((p e task w).world, log ++ [(e, task)]) ∧
    ((MyFooProcessor σ svc).1.decorator p e task st w).1.result = (p e task w).result ∧
    ((MyFooProcessor σ svc).1.decorator p e task st w).1.err = (p e task w).err ∧
    ((MyFooProcessor σ svc).1.decorator p e task st w).1.world = (p e task w).world := by
  rw [decorator_eq_inner, decorator_eq_inner]
  exact ⟨rfl, rfl, rfl, rfl⟩

/-! ## The initializer -/

/-- C6: the initializer that `MyFooProcessor` registers with the service returns a nil error
if and only if the configuration holds a string under `decryption_key_path`; in every other
case (key absent, or a value of another type) its error is
`decryption_key_path is not a string`. -/
theorem C6_initializer_error (σ : Type) (svc : Service) (c : BackendConfig) (st : FooState) :
    (MyFooProcessor σ svc).2.initializers = svc.initializers ++ [MyFooProcessor.initFunc] ∧
    ((MyFooProcessor.initFunc c st).1 = none ↔
      ∃ s, c.lookup "decryption_key_path" = some (GoValue.str s)) ∧
    ((MyFooProcessor.initFunc c st).1 = none ∨
      (MyFooProcessor.initFunc c st).1 = some "decryption_key_path is not a string") := by
  refine ⟨rfl, ?_, ?_⟩
  · rcases initFunc_cases c st with ⟨s, hs, h⟩ | ⟨hn, h⟩
    · rw [h]; exact ⟨fun _ => ⟨s, hs⟩, fun _ => rfl⟩
    · rw [h]; exact ⟨fun hf => by simp at hf, fun hs => absurd hs hn⟩
  · rcases initFunc_cases c st with ⟨s, _, h⟩ | ⟨_, h⟩
    · left; rw [h]
    · right; rw [h]

/-- C9: the key path captured by one `MyFooProcessor` instance is the empty string before
initialization; an initializer run that returns nil leaves in it the string stored under
`decryption_key_path`; an initializer run that returns an error leaves it unchanged; and no
call of the stage's `Process`, for any inner processor, envelope and task, changes it. -/
theorem C9_key_path_written_by_initializer_only {σ : Type} (svc : Service)
    (c : BackendConfig) (st : FooState) (p : Processor σ) (e : Envelope) (task : SelectTask)
    (w : σ) :
    (MyFooProcessor σ svc).1.captured.decryptionKey = "" ∧
    ((MyFooProcessor.initFunc c st).1 = none →
      c.lookup "decryption_key_path"
        = some (GoValue.str (MyFooProcessor.initFunc c st).2.decryptionKey)) ∧
    ((MyFooProcessor.initFunc c st).1 ≠ none → (MyFooProcessor.initFunc c st).2 = st) ∧
    ((MyFooProcessor σ svc).1.decorator p e task st w).2 = st := by
  refine ⟨rfl, ?_, ?_, ?_⟩
  · rcases initFunc_cases c st with ⟨s, hs, h⟩ | ⟨_, h⟩
    · rw [h]; intro _; exact hs
    · rw [h]; intro hf; simp at hf
  · rcases initFunc_cases c st with ⟨s, _, h⟩ | ⟨_, h⟩
    · rw [h]; intro hf; exact absurd rfl hf
    · rw [h]; intro _; rfl
  · rw [decorator_eq_inner]

/-- C9 on the test configuration and on a configuration without the key: the first run loads
`/tmp/cica`, the second fails and keeps it, and saving a mail keeps it. -/
theorem C9_key_path_written_by_initializer_only_witness :
    (MyFooProcessor Unit ⟨[]⟩).1.captured.decryptionKey = "" ∧
    (MyFooProcessor.initFunc testConfig FooState.zero).2.decryptionKey = "/tmp/cica" ∧
    (MyFooProcessor.initFunc [] ⟨"/tmp/cica"⟩).2 = ⟨"/tmp/cica"⟩ ∧
    ((MyFooProcessor Unit ⟨[]⟩).1.decorator acceptAll plainMail TaskSaveMail ⟨"/tmp/cica"⟩
        ()).2 = ⟨"/tmp/cica"⟩ :=
  have h1 := C9_key_path_written_by_initializer_only ⟨[]⟩ testConfig FooState.zero acceptAll
    plainMail TaskSaveMail ()
  have h2 := C9_key_path_written_by_initializer_only ⟨[]⟩ [] ⟨"/tmp/cica"⟩ acceptAll
    plainMail TaskSaveMail ()
  ⟨h1.1, by decide, h2.2.2.1 (by decide), h2.2.2.2⟩

/-! ## The command tree -/

/-- C7, on the code: run without a subcommand, for every argument list, the `RunE` function of
`rootCmd` shows the help screen of `smimegw` and returns nil; that is all `Execute` does on
the empty argument list, and the only command registered under the root is `version`: no
serve command runs. -/
theorem C7_root_shows_help (args : List String) (rt : Runtime) :
    rootCmd.RunE rootCmd.Use args rt = Exec.returned none [Effect.help "smimegw"] ∧
    rootCmd.Execute [] rt = Exec.returned none [Effect.help "smimegw"] ∧
    rootCmd.commands.map Command.Name = ["version"] := by
  refine ⟨rfl, rfl, by decide⟩

/-- C8: `Execute` on `rootCmd` with the arguments `["version"]` finds `versionCmd` and, on
every run in which build information is available, returns a nil error after printing it;
the `Run` function of `versionCmd` either finishes (it has no error to return) or panics with
`ReadBuildInfo failed`, and it panics exactly when `debug.ReadBuildInfo` reports that build
information is not available. -/
theorem C8_version_runs (bi : String) (cmd : String) (args : List String) (rt : Runtime) :
    (Command.Find ["version"] rootCmd).1.Use = versionCmd.Use ∧
    (Command.Find ["version"] rootCmd).1.Run = some versionCmd.Run ∧
    rootCmd.Execute ["version"] ⟨some bi⟩
      = Exec.returned none
          [Effect.stdout "\n", Effect.stdout ("Build info:\n" ++ bi ++ "\n")] ∧
    ((∃ out, versionCmd.Run cmd args rt = Ran.panicked "ReadBuildInfo failed" out) ↔
      rt.buildInfo = none) ∧
    ((∃ out, versionCmd.Run cmd args rt = Ran.finished out) ↔ rt.buildInfo ≠ none) := by
  refine ⟨rfl, rfl, rfl, ?_, ?_⟩
  · unfold versionCmd.Run
    cases rt.buildInfo with
    | none => simp
    | some b => simp
  · unfold versionCmd.Run
    cases rt.buildInfo with
    | none => simp
    | some b => simp

/-! ## The certificate template -/

/-- C10: whenever key and serial number are drawn without error, `generateSelfSignedCert`
builds a template in which, for every `commonName`, `isCA`, `keyUsage` and `extKeyUsage`: the
subject alternative names are the DNS name `localhost` and the IP address 127.0.0.1 if and
only if `commonName` is `TLS Server`, and both lists are empty otherwise; `IsCA` is true if
and only if `isCA` is; and the key usage is `keyUsage` with the `CertSign` bit (bit 5) set
when `isCA` is true and `keyUsage` itself when `isCA` is false. -/
theorem C10_self_signed_template (env : CertEnv) (commonName : String) (isCA : Bool)
    (keyUsage : KeyUsage) (extKeyUsage : List ExtKeyUsage) (key serial : Nat)
    (hkey : env.key = Except.ok key) (hserial : env.serial = Except.ok serial) :
    ∃ t : Certificate,
      generateSelfSignedCert env commonName isCA keyUsage extKeyUsage = Except.ok (t, key) ∧
      ((t.DNSNames = ["localhost"] ∧ t.IPAddresses = [ip127001]) ↔
        commonName = "TLS Server") ∧
      (commonName ≠ "TLS Server" → t.DNSNames = [] ∧ t.IPAddresses = []) ∧
      (t.IsCA = true ↔ isCA = true) ∧
      (isCA = true → t.KeyUsage = Int.lor keyUsage KeyUsageCertSign) ∧
      (isCA = false → t.KeyUsage = keyUsage) ∧
      (∀ k : Nat, Int.testBit t.KeyUsage k
        = (Int.testBit keyUsage k || (isCA && decide (k = 5)))) := by
  unfold generateSelfSignedCert
  rw [hkey, hserial]
  refine ⟨_, rfl, ?_, ?_, ?_, ?_, ?_, ?_⟩
  · by_cases hc : commonName = "TLS Server" <;> cases isCA <;> simp [hc]
  · intro hc
    cases isCA <;> simp [hc]
  · by_cases hc : commonName = "TLS Server" <;> cases isCA <;> simp [hc]
  · intro hca
    subst hca
    by_cases hc : commonName = "TLS Server" <;> simp [hc]
  · intro hca
    subst hca
    by_cases hc : commonName = "TLS Server" <;> simp [hc]
  · intro k
    by_cases hc : commonName = "TLS Server" <;> cases isCA <;>
      simp [hc, Int.testBit_lor, testBit_certSign]

/-- C10 at the first call in `main`: the TLS server certificate, not a CA, with key usage
`DigitalSignature | KeyEncipherment`. -/
theorem C10_self_signed_template_witness :
    sampleEnv.key = Except.ok 1 ∧ sampleEnv.serial = Except.ok 42 ∧
    (∃ t : Certificate,
      generateSelfSignedCert sampleEnv "TLS Server" false
        (Int.lor KeyUsageDigitalSignature KeyUsageKeyEncipherment) [ExtKeyUsageServerAuth]
          = Except.ok (t, 1) ∧
      t.DNSNames = ["localhost"] ∧ t.IPAddresses = [ip127001] ∧ t.IsCA = false ∧
      t.KeyUsage = 5) :=
  ⟨rfl, rfl,
    match C10_self_signed_template sampleEnv "TLS Server" false
      (Int.lor KeyUsageDigitalSignature KeyUsageKeyEncipherment) [ExtKeyUsageServerAuth]
      1 42 rfl rfl with
    | ⟨t, ht, hsan, _, hca, _, hku, _⟩ =>
      ⟨t, ht, (hsan.2 rfl).1, (hsan.2 rfl).2,
        by cases hI : t.IsCA with
           | false => rfl
           | true => exact absurd (hca.1 hI) (by decide),
        by rw [hku rfl]; decide⟩⟩

end Smimegw
